import Mathlib

/-!
Verification of the chevron-blue Mustache renderer (`src/chevron_blue/renderer.py`)
against its natural-language specification.

The development is a shallow embedding of the renderer: Python values that can
appear in a data scope become the inductive type `Value`, Python's exception
flow becomes `Except` over the inductive `PyExc`, and the recursive
`render` function becomes a fuel-indexed structural recursion so that every
definition evaluates inside the kernel.  The tokenizer module is not part of
the sources; where concrete template strings must be tokenized it is modelled
from the specification (see `tokenize` below).
-/

/-- The single-quote character, used when building Python-style messages. -/
def squote : String := String.mk [Char.ofNat 39]

/-- Replace every occurrence of the character `c` in `s` by the string `r`.
Python's `str.replace` with a one-character pattern (the only form the
renderer uses) rewrites each occurrence independently, which is exactly a
character-wise expansion. -/
def replaceChar (c : Char) (r : String) (s : String) : String :=
  String.join (s.toList.map (fun ch => if ch = c then r else String.mk [ch]))

/-- Concatenation of a list of strings (`"".join` / repeated `+=`). -/
def sjoin : List String → String
  | [] => ""
  | s :: rest => s ++ sjoin rest

/-- The fragment of `s` after its last newline; the whole of `s` when there is
no newline.  Embeds `output.rpartition("\n")[2]`. -/
def afterLastNl (s : String) : String :=
  String.mk (((s.toList.reverse).takeWhile (fun c => c ≠ '\n')).reverse)

/-- Python `str.isspace`: true iff the string is nonempty and all whitespace. -/
def pyIsSpace (s : String) : Bool :=
  !s.toList.isEmpty && s.toList.all (fun c => c.isWhitespace)

/-- Python `str.rstrip(" \t")`: drop trailing spaces and tabs. -/
def rstripSpTab (s : String) : String :=
  String.mk (((s.toList.reverse).dropWhile (fun c => c = ' ' ∨ c = '\t')).reverse)

/-- Python `str.strip()`: drop surrounding whitespace. -/
def pyStrip (s : String) : String :=
  String.mk (((s.toList.dropWhile Char.isWhitespace).reverse.dropWhile
    Char.isWhitespace).reverse)

/-- Split a string on a separator character; `splitChar '.' "a.b" = ["a","b"]`
and `splitChar '.' "" = [""]`, matching Python's `str.split(".")`. -/
def splitCharAux (c : Char) : List Char → List Char → List String
  | [], cur => [String.mk cur.reverse]
  | ch :: rest, cur =>
    if ch = c then String.mk cur.reverse :: splitCharAux c rest []
    else splitCharAux c rest (ch :: cur)

/-- See `splitCharAux`. -/
def splitChar (c : Char) (s : String) : List String :=
  splitCharAux c s.toList []

/-- Python `int(str)` on the strings the renderer can produce: optional
surrounding whitespace, an optional sign, then decimal digits. -/
def pyInt (s : String) : Option Int :=
  let t := (pyStrip s).toList
  let (neg, ds) :=
    match t with
    | '-' :: rest => (true, rest)
    | '+' :: rest => (false, rest)
    | rest => (false, rest)
  if ds.isEmpty ∨ ¬ ds.all Char.isDigit then none
  else
    let n : Nat := ds.foldl (fun acc c => acc * 10 + (c.toNat - 48)) 0
    some (if neg then -(n : Int) else (n : Int))

/-!  ## The data model

A scope value is a closed tagged variant of the Python values the renderer
manipulates: `None`, booleans, integers, strings, lists, dictionaries with
string keys, structured objects exposing named fields (with an explicit
truthiness bit standing for a custom `__bool__`), and lambdas.  Python
callables are arbitrary functions; they are embedded as a family of
syntactic shapes that covers constant lambdas, lambdas that use the raw
section text, and lambdas that invoke the render callback they receive. -/

inductive Value where
  | null
  | bool (b : Bool)
  | int (n : Int)
  | str (s : String)
  | list (elems : List Value)
  | dict (entries : List (String × Value))
  | obj (fields : List (String × Value)) (pybool : Bool)
  | lamConst (s : String)
  | lamEcho
  | lamWrap (pre post : String)
  | lamRender (tmpl : String) (extra : Option Value)

/-- Python truthiness of a scope value. -/
def truthyV : Value → Bool
  | .null => false
  | .bool b => b
  | .int n => n ≠ 0
  | .str s => s ≠ ""
  | .list xs => !xs.isEmpty
  | .dict es => !es.isEmpty
  | .obj _ pybool => pybool
  | .lamConst _ | .lamEcho | .lamWrap _ _ | .lamRender _ _ => true

/-- Embeds `isinstance(scope, Callable)`. -/
def isCallable : Value → Bool
  | .lamConst _ | .lamEcho | .lamWrap _ _ | .lamRender _ _ => true
  | _ => false

/-- Embeds `isinstance(scope, (Sequence, Iterator)) and not isinstance(scope, str)`:
of the embedded values only lists qualify (strings are explicitly excluded,
dictionaries are mappings, not sequences). -/
def isSeqNonStr : Value → Bool
  | .list _ => true
  | _ => false

/-- The elements iterated over by the section loop. -/
def seqElems : Value → List Value
  | .list xs => xs
  | _ => []

mutual
/-- Python `repr` for the embedded values (used by `str` on containers).
The address-bearing default `repr` of objects and functions is elided to a
fixed placeholder, which no claim observes. -/
def pyRepr : Value → String
  | .null => "None"
  | .bool true => "True"
  | .bool false => "False"
  | .int n => toString n
  | .str s => squote ++ s ++ squote
  | .list xs => "[" ++ pyReprList xs ++ "]"
  | .dict es => "\x7b" ++ pyReprEntries es ++ "\x7d"
  | .obj _ _ => "<object>"
  | .lamConst _ | .lamEcho | .lamWrap _ _ | .lamRender _ _ => "<lambda>"

/-- Comma-separated `repr` of list elements. -/
def pyReprList : List Value → String
  | [] => ""
  | [v] => pyRepr v
  | v :: rest => pyRepr v ++ ", " ++ pyReprList rest

/-- Comma-separated `repr` of dictionary entries. -/
def pyReprEntries : List (String × Value) → String
  | [] => ""
  | [(k, v)] => squote ++ k ++ squote ++ ": " ++ pyRepr v
  | (k, v) :: rest => squote ++ k ++ squote ++ ": " ++ pyRepr v ++ ", " ++ pyReprEntries rest
end

/-- Python `str` of a scope value. -/
def pyStr : Value → String
  | .str s => s
  | v => pyRepr v

/-!  ## Exceptions and key resolution (`_get_key`) -/

/-- The Python exception kinds that flow through `_get_key`. -/
inductive PyExc where
  | typeError
  | attributeError
  | keyError (msg : String)
  | indexError
  | valueError
deriving DecidableEq

/-- Embeds `scope[child]` with a string subscript.  Dictionaries look the key up
(a miss is a `KeyError`, which the inner `except (TypeError, AttributeError)`
does not catch); every other embedded value is either unsubscriptable or
rejects string indices, a `TypeError`. -/
def subscriptV (scope : Value) (child : String) : Except PyExc Value :=
  match scope with
  | .dict es =>
    match es.lookup child with
    | some v => .ok v
    | none => .error (.keyError child)
  | _ => .error .typeError

/-- Embeds `getattr(scope, child)`.  Only structured objects expose named fields in
the embedding; on every other value the attribute is absent. -/
def getattrV (scope : Value) (child : String) : Except PyExc Value :=
  match scope with
  | .obj fields _ =>
    match fields.lookup child with
    | some v => .ok v
    | none => .error .attributeError
  | _ => .error .attributeError

/-- Zero-based (and Python-negative) list indexing. -/
def pyIndexList (xs : List Value) (i : Int) : Except PyExc Value :=
  let n : Int := xs.length
  let j : Int := if i < 0 then n + i else i
  if h : 0 ≤ j ∧ j < n then .ok (xs.get ⟨j.toNat, by omega⟩)
  else .error .indexError

/-- Embeds `scope[int(child)]`: `int(child)` raises `ValueError` on a non-numeric
string; otherwise lists and strings index (an out-of-range index is an
`IndexError`, which the outer handler catches), dictionaries miss (integer
keys never match the string keys of the embedding), and everything else is
unsubscriptable — a `TypeError` that no handler in `_get_key` catches. -/
def intIndexV (scope : Value) (child : String) : Except PyExc Value :=
  match pyInt child with
  | none => .error .valueError
  | some i =>
    match scope with
    | .list xs => pyIndexList xs i
    | .str s => (pyIndexList (s.toList.map (fun c => .str (String.mk [c]))) i)
    | .dict _ => .error (.keyError child)
    | _ => .error .typeError

/-- One dotted-path segment: try subscripting; on `TypeError`/`AttributeError`
try attribute access; on `TypeError`/`AttributeError` again, try integer
indexing.  Other exceptions short-circuit the chain. -/
def trySegment (scope : Value) (child : String) : Except PyExc Value :=
  match subscriptV scope child with
  | .ok v => .ok v
  | .error e =>
    if e = .typeError ∨ e = .attributeError then
      match getattrV scope child with
      | .ok v => .ok v
      | .error e2 =>
        if e2 = .typeError ∨ e2 = .attributeError then intIndexV scope child
        else .error e2
    else .error e

/-- Walk the full dotted path down one scope, recording (as the error payload)
the index of the segment at which resolution failed, Python's `key_index`. -/
def resolveSegs (scope : Value) (segs : List String) (i : Nat) :
    Except (Nat × PyExc) Value :=
  match segs with
  | [] => .ok scope
  | c :: cs =>
    match trySegment scope c with
    | .error e => .error (i, e)
    | .ok v => resolveSegs v cs (i + 1)

/-- The marker attribute probed for custom falsy data types. -/
def falsyMarker : String := "_CHEVRON_return_scope_when_falsy"

/-- The post-resolution coercion of `_get_key`: `0` and `False` are returned
as-is; a value whose `_CHEVRON_return_scope_when_falsy` attribute is truthy is
returned as-is; a value carrying the attribute with a falsy content returns
nothing (the scope loop falls through to the next scope); otherwise a truthy
value is returned as-is and a falsy one collapses to the empty string. -/
def coerceFound (v : Value) : Option Value :=
  match v with
  | .int 0 => some (.int 0)
  | .bool false => some (.bool false)
  | _ =>
    match getattrV v falsyMarker with
    | .ok m => if truthyV m then some v else none
    | .error _ => if truthyV v then some v else some (.str "")

/-- The scope loop of `_get_key`: innermost scope first; a failure on the
first segment moves on to the next scope, a failure on a later segment stops
the search (`ok none`, the missing-key outcome); a `TypeError` escapes
`_get_key` entirely because its outer handler does not catch it. -/
def walkScopes (scopes : List Value) (segs : List String) :
    Except PyExc (Option Value) :=
  match scopes with
  | [] => .ok none
  | s :: rest =>
    match resolveSegs s segs 0 with
    | .ok v =>
      match coerceFound v with
      | some r => .ok (some r)
      | none => walkScopes rest segs
    | .error (_, .typeError) => .error .typeError
    | .error (i, _) => if 0 < i then .ok none else walkScopes rest segs

/-- Embeds `_get_key`.  The result carries the list of warnings emitted
(Python sends them to the warnings machinery, not to the output) together
with the resolved value; a `KeyError` under the `error` policy and an escaped
`TypeError` are `Except` failures. -/
def get_key (key : String) (scopes : List Value) (on_missing_key : String)
    (keep : Bool) (def_ldel def_rdel : String) :
    Except PyExc (List String × Value) :=
  if key = "." then
    match scopes with
    | [] => .error .indexError
    | s :: _ => .ok ([], s)
  else
    match walkScopes scopes (splitChar '.' key) with
    | .error e => .error e
    | .ok (some v) => .ok ([], v)
    | .ok none =>
      if on_missing_key = "error" then
        .error (.keyError ("Could not find key " ++ squote ++ key ++ squote))
      else
        let ws := if on_missing_key = "warn" then
          ["Could not find key " ++ squote ++ key ++ squote ++ " in data"]
        else []
        if keep then .ok (ws, .str (def_ldel ++ " " ++ key ++ " " ++ def_rdel))
        else .ok (ws, .str "")

/-!  ## HTML escaping (`_html_escape`) -/

/-- Embeds `_html_escape`: the ampersand is replaced first so that the
entities introduced for the other three characters are not re-escaped. -/
def html_escape (s : String) : String :=
  replaceChar '>' "&gt;"
    (replaceChar '<' "&lt;"
      (replaceChar '"' "&quot;"
        (replaceChar '&' "&amp;" s)))

/-!  ## Partial resolution (`_get_partial`)

The filesystem is an explicit parameter `fs` mapping a path to its UTF-8
content; `none` stands for any `IOError` (absent file, permission failure,
and so on). -/

/-- Embeds `os.path.join` for the two-component case the renderer uses. -/
def pathJoin (a b : String) : String :=
  if a.toList.getLast? = some '/' then a ++ b else a ++ "/" ++ b

/-- Embeds `_get_partial`: the caller-supplied dictionary first; on a miss,
no filesystem access when the partials path is `None` or empty; otherwise
read `<path>/<name>.<ext>`, any read failure degrading to empty text.  The
result type `String` shows that partial resolution never raises. -/
def get_partial_text (fs : String → Option String) (name : String)
    (partials_dict : List (String × String)) (partials_path : Option String)
    (partials_ext : String) : String :=
  match partials_dict.lookup name with
  | some text => text
  | none =>
    match partials_path with
    | none => ""
    | some p =>
      if p = "" then ""
      else
        let path_ext := if partials_ext = "" then "" else "." ++ partials_ext
        match fs (pathJoin p (name ++ path_ext)) with
        | some content => content
        | none => ""

example : get_key "a" [.dict [("a", .str "x")]] "ignore" false "\x7b\x7b" "\x7d\x7d"
    = .ok ([], .str "x") := rfl
example : pyInt "-12" = some (-12) := rfl
example : pyInt "b" = none := rfl
example : splitChar '.' "a.b.c" = ["a", "b", "c"] := rfl
example : html_escape "<a&b>" = "&lt;a&amp;b&gt;" := rfl
example : afterLastNl "ab\n  " = "  " := rfl
example : pyStr (.list [.int 1, .str "a"]) = "[1, " ++ squote ++ "a" ++ squote ++ "]" := rfl

/-!  ## Tokens and the tokenizer

A token is a `(tagType, key)` pair of strings, exactly the pairs the renderer
consumes (`"literal"`, `"variable"`, `"no escape"`, `"section"`,
`"inverted section"`, `"end"`, `"partial"`, `"comment"`, `"set delimiter"`). -/

abbrev Token := String × String

/-- First occurrence of `pat` in a character list: the text before it and the
text after it, or `none` when absent. -/
def splitFirst (pat : List Char) : List Char → Option (List Char × List Char)
  | [] => if pat.isEmpty then some ([], []) else none
  | c :: cs =>
    if pat.isPrefixOf (c :: cs) then some ([], (c :: cs).drop pat.length)
    else
      match splitFirst pat cs with
      | some (b, a) => some (c :: b, a)
      | none => none

/-- All-whitespace test on characters. -/
def allWS (l : List Char) : Bool := l.all (fun c => c.isWhitespace)

/-- Characters after the last newline. -/
def afterLastNlL (l : List Char) : List Char :=
  ((l.reverse).takeWhile (fun c => c ≠ '\n')).reverse

/-- Python's argumentless `str.split`: split on whitespace runs. -/
def splitWSAux : List Char → List Char → List String
  | [], cur => if cur.isEmpty then [] else [String.mk cur.reverse]
  | c :: rest, cur =>
    if c.isWhitespace then
      if cur.isEmpty then splitWSAux rest []
      else String.mk cur.reverse :: splitWSAux rest []
    else splitWSAux rest (c :: cur)

/-- See `splitWSAux`. -/
def splitWS (l : List Char) : List String := splitWSAux l []

/-- The left brace character of the triple-mustache form. -/
def lbrace : Char := Char.ofNat 123

/-- The right brace character of the triple-mustache form. -/
def rbrace : Char := Char.ofNat 125

/-- Tag kinds eligible for standalone-line whitespace stripping (everything
except `Variable`/`Unescaped` directives and literals). -/
def strippable (t : String) : Bool :=
  t = "comment" || t = "section" || t = "inverted section" || t = "end" ||
  t = "partial" || t = "set delimiter"

/-- Classify a tag by the sigil immediately after the left delimiter; the key
is the remaining content with surrounding whitespace trimmed.  The `{` and
`=` forms are handled before this point because they change the closing
sequence. -/
def classifyTag (content : List Char) : Token :=
  match content with
  | '!' :: rest => ("comment", pyStrip (String.mk rest))
  | '#' :: rest => ("section", pyStrip (String.mk rest))
  | '^' :: rest => ("inverted section", pyStrip (String.mk rest))
  | '/' :: rest => ("end", pyStrip (String.mk rest))
  | '>' :: rest => ("partial", pyStrip (String.mk rest))
  | '&' :: rest => ("no escape", pyStrip (String.mk rest))
  | _ => ("variable", pyStrip (String.mk content))

/-- Standalone check, left half: the current line, up to the tag, is all
whitespace and carries no earlier tag. -/
def beforeOk (pending : List Char) (tagOnLine : Bool) : Bool :=
  if pending.contains '\n' then allWS (afterLastNlL pending)
  else allWS pending && !tagOnLine

/-- Standalone check, right half: when the rest of the tag's line is all
whitespace, consume it together with the line's newline and return the
remainder; `none` when the tag is not alone on its line. -/
def stripAfter (rem : List Char) : Option (List Char) :=
  let upto := rem.takeWhile (fun c => c ≠ '\n')
  if allWS upto then
    match rem.drop upto.length with
    | [] => some []
    | _ :: rest => some rest
  else none

/-- Remove the stripped line's leading whitespace from the pending literal,
keeping everything up to and including the previous line's newline. -/
def stripPending (pending : List Char) : List Char :=
  if pending.contains '\n' then ((pending.reverse).dropWhile (fun c => c ≠ '\n')).reverse
  else []

/-- Append a pending literal (when nonempty) and a tag to the accumulator. -/
def emitTag (acc : List Token) (pending : List Char) (t : Token) : List Token :=
  acc ++ (if pending.isEmpty then [] else [("literal", String.mk pending)]) ++ [t]

/-- Modelled from the spec: the tokenizer (`chevron_blue/tokenizer.py` is not
among the sources).  Scans the text for the active left delimiter, classifies
each directive by its leading sigil (`!` comment, `#` section, `^` inverted
section, `/` section close, `>` partial, `&` unescaped, `{...}`
triple-mustache unescaped, `=...=` delimiter change closed by the doubled
right delimiter), trims keys, applies standalone-line whitespace stripping to
non-variable directives, tracks delimiter changes, and validates section
nesting, erroring on a close with no opener, a mismatched close, an unclosed
section at end of input, and an unterminated tag.  A standalone partial keeps
the whitespace to its left as a literal: the renderer's indentation mechanism
reads it back off the accumulated output as the partial's padding.  The
spec's 1-based line numbers in error messages are elided; no claim observes
them. -/
def tkRun (fuel : Nat) (ldel rdel : List Char) (text : List Char)
    (pending : List Char) (tagOnLine : Bool) (stack : List (String × String))
    (acc : List Token) : Except String (List Token) :=
  match fuel with
  | 0 => .error "tokenizer fuel exhausted"
  | Nat.succ n =>
    match splitFirst ldel text with
    | none =>
      if stack.isEmpty then
        let pending2 := pending ++ text
        .ok (acc ++ (if pending2.isEmpty then [] else [("literal", String.mk pending2)]))
      else .error "unclosed section tag"
    | some (before, after) =>
      let pending2 := pending ++ before
      if after.head? = some lbrace then
        match splitFirst (rbrace :: rdel) (after.drop 1) with
        | none => .error "unclosed tag"
        | some (content, rem) =>
          tkRun n ldel rdel rem [] true stack
            (emitTag acc pending2 ("no escape", pyStrip (String.mk content)))
      else if after.head? = some '=' then
        match splitFirst ('=' :: rdel) (after.drop 1) with
        | none => .error "unclosed tag"
        | some (content, rem) =>
          match splitWS content with
          | [newL, newR] =>
            let t : Token := ("set delimiter", pyStrip (String.mk content))
            if strippable t.1 && beforeOk pending2 tagOnLine then
              match stripAfter rem with
              | some rem2 =>
                tkRun n newL.toList newR.toList rem2 [] false stack
                  (emitTag acc (stripPending pending2) t)
              | none =>
                tkRun n newL.toList newR.toList rem [] true stack (emitTag acc pending2 t)
            else tkRun n newL.toList newR.toList rem [] true stack (emitTag acc pending2 t)
          | _ => .error "invalid set delimiter tag"
      else
        match splitFirst rdel after with
        | none => .error "unclosed tag"
        | some (content, rem) =>
          let t := classifyTag content
          match
            (if t.1 = "section" ∨ t.1 = "inverted section" then .ok (t :: stack)
             else if t.1 = "end" then
               match stack with
               | [] => .error "closing tag with no opener"
               | (_, k) :: st =>
                 if k = t.2 then .ok st else .error "unexpected closing tag"
             else .ok stack : Except String (List (String × String))) with
          | .error e => .error e
          | .ok stack2 =>
            if strippable t.1 && beforeOk pending2 tagOnLine then
              match stripAfter rem with
              | some rem2 =>
                tkRun n ldel rdel rem2 [] false stack2
                  (emitTag acc
                    (if t.1 = "partial" then pending2 else stripPending pending2) t)
              | none => tkRun n ldel rdel rem [] true stack2 (emitTag acc pending2 t)
            else tkRun n ldel rdel rem [] true stack2 (emitTag acc pending2 t)

/-- Modelled from the spec: `tokenize(text, leftDelim, rightDelim)`.  Each
scanner step consumes at least the left delimiter, so `length + 1` fuel
always suffices for nonempty delimiters. -/
def tokenize (template def_ldel def_rdel : String) : Except String (List Token) :=
  tkRun (template.toList.length + 1) def_ldel.toList def_rdel.toList
    template.toList [] false [] []

example : tokenize "\x7b\x7b#key\x7d\x7d\x7b\x7b.\x7d\x7d\x7b\x7b/key\x7d\x7d" "\x7b\x7b" "\x7d\x7d"
    = .ok [("section", "key"), ("variable", "."), ("end", "key")] := rfl
example : tokenize "\x7b\x7b x \x7d\x7d \x7b\x7b y \x7d\x7d" "\x7b\x7b" "\x7d\x7d"
    = .ok [("variable", "x"), ("literal", " "), ("variable", "y")] := rfl
example : tokenize "\x7b\x7b\x7bv\x7d\x7d\x7d" "\x7b\x7b" "\x7d\x7d" = .ok [("no escape", "v")] := rfl
example : tokenize "\x7b\x7b v\x7d\x7d" "<<" ">>" = .ok [("literal", "\x7b\x7b v\x7d\x7d")] := rfl
example : tokenize "a\n  \x7b\x7b!c\x7d\x7d  \nb" "\x7b\x7b" "\x7d\x7d"
    = .ok [("literal", "a\n"), ("comment", "c"), ("literal", "b")] := rfl
example : tokenize "\x7b\x7b#s\x7d\x7dtext" "\x7b\x7b" "\x7d\x7d" = .error "unclosed section tag" := rfl
example : tokenize "\x7b\x7b/s\x7d\x7d" "\x7b\x7b" "\x7d\x7d" = .error "closing tag with no opener" := rfl
example : tokenize "\x7b\x7b= bad!\x7d\x7d" "\x7b\x7b" "\x7d\x7d" = .error "unclosed tag" := rfl
example : tokenize "\x7b\x7b=<% %>=\x7d\x7da<%v%>" "\x7b\x7b" "\x7d\x7d"
    = .ok [("set delimiter", "<% %>"), ("literal", "a"), ("variable", "v")] := rfl

/-!  ## The renderer (`render`) -/

/-- Renderer-level failures: a propagated Python exception, a tokenizer
syntax error, the `ValueError` guarding the legacy `warn` argument, and fuel
exhaustion (the embedding's stand-in for unbounded recursion). -/
inductive RErr where
  | py (e : PyExc)
  | syntaxError (msg : String)
  | valueError (msg : String)
  | outOfFuel
deriving DecidableEq

/-- The process-wide token cache `g_token_cache`, keyed by template text. -/
abbrev Cache := List (String × List Token)

/-- A template argument: raw text, or an already-tokenized tag sequence (the
Python `Sequence`-but-not-`str` case). -/
inductive Tmpl where
  | text (s : String)
  | toks (ts : List Token)

/-- Option bundle of `render`, with the filesystem made explicit. -/
structure Opts where
  partials_dict : List (String × String)
  partials_path : Option String
  partials_ext : String
  def_ldel : String
  def_rdel : String
  on_missing_key : String
  keep : Bool
  no_escape : Bool
  fs : String → Option String

/-- Token acquisition at `render` entry: a token-sequence template is used
directly; a text template is looked up in the cache by its text alone and
only tokenized (with the call's delimiters) on a cache miss. -/
def getToks (cache : Cache) (tmpl : Tmpl) (ldel rdel : String) :
    Except String (List Token) :=
  match tmpl with
  | .toks ts => .ok ts
  | .text s =>
    match cache.lookup s with
    | some ts => .ok ts
    | none => tokenize s ldel rdel

/-- The sigil dictionary of the lambda re-serializer, verbatim from the
source — including its misspelt `"commment"` key. -/
def sigilTable : List (String × String) :=
  [("commment", "!"), ("section", "#"), ("inverted section", "^"),
   ("end", "/"), ("partial", ">"), ("set delimiter", "="),
   ("no escape", "&"), ("variable", "")]

/-- Re-serialize one tag into Mustache source text: literals pass through
verbatim, unescaped tags use the `&` sigil form, anything else goes through
`sigilTable` — where a lookup miss is Python's `KeyError`. -/
def serializeTag (ldel rdel : String) (t : Token) : Except PyExc String :=
  if t.1 = "literal" then .ok t.2
  else if t.1 = "no escape" then .ok (ldel ++ "& " ++ t.2 ++ " " ++ rdel)
  else
    match sigilTable.lookup t.1 with
    | some sig => .ok (ldel ++ sig ++ " " ++ t.2 ++ rdel)
    | none => .error (.keyError t.1)

/-- Collect the tag subsequence handed to a lambda: everything up to the
first `("end", key)` token (no same-key counting on this path), together
with its re-serialized source text and the remaining tokens. -/
def collectLambda (key ldel rdel : String) :
    List Token → Except PyExc (String × List Token × List Token)
  | [] => .ok ("", [], [])
  | t :: rest =>
    if t = ("end", key) then .ok ("", [], rest)
    else
      match serializeTag ldel rdel t with
      | .error e => .error e
      | .ok s =>
        match collectLambda key ldel rdel rest with
        | .error e => .error e
        | .ok (text, tags, rem) => .ok (s ++ text, t :: tags, rem)

/-- Collect the tag subsequence of a sequence section up to the matching
`("end", key)`, counting same-key opens and closes so an identically-keyed
inner section does not terminate the outer one. -/
def collectSection (key : String) (counter : Nat) :
    List Token → List Token × List Token
  | [] => ([], [])
  | t :: rest =>
    if t = ("section", key) then
      let (tags, rem) := collectSection key (counter + 1) rest
      (t :: tags, rem)
    else if t = ("end", key) then
      if counter = 0 then ([], rest)
      else
        let (tags, rem) := collectSection key (counter - 1) rest
        (t :: tags, rem)
    else
      let (tags, rem) := collectSection key counter rest
      (t :: tags, rem)

/-- The scope stack handed to the lambda's render callback:
`data and [data] + scopes or scopes` — the extra data is pushed as a new top
frame only when supplied and truthy. -/
def lamScopes (extra : Option Value) (scopes : List Value) : List Value :=
  match extra with
  | some d => if truthyV d then d :: scopes else scopes
  | none => scopes

/-- The type of a fuel-instantiated recursive render call. -/
abbrev RenderFn :=
  Cache → Tmpl → List Value → Opts → String → String → Except RErr (String × Cache)

/-- Invoke a section lambda on the re-serialized section text and the render
callback `rc` (a recursive render with the current options and padding). -/
def applyLambda (rc : RenderFn) (cache : Cache) (v : Value) (text : String)
    (scopes : List Value) (o : Opts) (pad : String) :
    Except RErr (String × Cache) :=
  match v with
  | .lamConst s => .ok (s, cache)
  | .lamEcho => .ok (text, cache)
  | .lamWrap pre post => .ok (pre ++ text ++ post, cache)
  | .lamRender tmpl extra => rc cache (.text tmpl) (lamScopes extra scopes) o pad ""
  | _ => .error (.py .typeError)

/-- Render a collected section subsequence once per element, each time with
the element pushed as the new innermost scope, appending the results in
iteration order. -/
def foldElems (rc : RenderFn) (cache : Cache) (tags : List Token)
    (elems : List Value) (scopes : List Value) (o : Opts) (pad out : String) :
    Except RErr (String × Cache) :=
  match elems with
  | [] => .ok (out, cache)
  | e :: es =>
    match rc cache (.toks tags) (e :: scopes) o pad "" with
    | .error err => .error err
    | .ok (rend, cache2) => foldElems rc cache2 tags es scopes o pad (out ++ rend)

/-- Embeds the body of `render` (after the legacy-`warn` resolution): the
explicit-index traversal of the token stream with the mutable scope stack,
one unit of fuel per processed token or nested render entry.  `out` is the
output accumulated so far (the partial branch inspects it for padding). -/
def renderCore : Nat → Cache → Tmpl → List Value → Opts → String → String →
    Except RErr (String × Cache)
  | 0, _, _, _, _, _, _ => .error .outOfFuel
  | Nat.succ n, cache, tmpl, scopes, o, pad, out =>
    match getToks cache tmpl o.def_ldel o.def_rdel with
    | .error m => .error (.syntaxError m)
    | .ok toks =>
      match toks with
      | [] => .ok (out, cache)
      | (tag, key) :: rest =>
        match scopes with
        | [] => .error (.py .indexError)
        | current :: srest =>
          if tag = "end" then
            renderCore n cache (.toks rest) srest o pad out
          else if !truthyV current && scopes.length != 1 then
            if tag = "section" || tag = "inverted section" then
              renderCore n cache (.toks rest) (.bool false :: scopes) o pad out
            else
              renderCore n cache (.toks rest) scopes o pad out
          else if tag = "literal" then
            renderCore n cache (.toks rest) scopes o pad
              (out ++ replaceChar '\n' ("\n" ++ pad) key)
          else if tag = "variable" then
            match get_key key scopes o.on_missing_key o.keep o.def_ldel o.def_rdel with
            | .error e => .error (.py e)
            | .ok (_, thing) =>
              match
                (match thing with
                 | .bool true =>
                   if key = "." then
                     match scopes with
                     | _ :: s1 :: _ => Except.ok s1
                     | _ => Except.error (RErr.py .indexError)
                   else .ok (.bool true)
                 | t => .ok t : Except RErr Value) with
              | .error e => .error e
              | .ok t =>
                renderCore n cache (.toks rest) scopes o pad
                  (out ++ if o.no_escape then pyStr t else html_escape (pyStr t))
          else if tag = "no escape" then
            match get_key key scopes o.on_missing_key o.keep o.def_ldel o.def_rdel with
            | .error e => .error (.py e)
            | .ok (_, thing) =>
              renderCore n cache (.toks rest) scopes o pad (out ++ pyStr thing)
          else if tag = "section" then
            match get_key key scopes o.on_missing_key o.keep o.def_ldel o.def_rdel with
            | .error e => .error (.py e)
            | .ok (_, scope) =>
              if isCallable scope then
                match collectLambda key o.def_ldel o.def_rdel rest with
                | .error e => .error (.py e)
                | .ok (text, tags, rest2) =>
                  let cache2 : Cache := (text, tags) :: cache
                  match applyLambda (renderCore n) cache2 scope text scopes o pad with
                  | .error e => .error e
                  | .ok (rend, cache3) =>
                    renderCore n cache3 (.toks rest2) scopes o pad (out ++ rend)
              else if isSeqNonStr scope then
                let (tags, rest2) := collectSection key 0 rest
                match foldElems (renderCore n) cache tags (seqElems scope) scopes o pad out with
                | .error e => .error e
                | .ok (out2, cache2) =>
                  renderCore n cache2 (.toks rest2) scopes o pad out2
              else
                renderCore n cache (.toks rest) (scope :: scopes) o pad out
          else if tag = "inverted section" then
            match get_key key scopes o.on_missing_key o.keep o.def_ldel o.def_rdel with
            | .error e => .error (.py e)
            | .ok (_, scope) =>
              renderCore n cache (.toks rest) (.bool (!truthyV scope) :: scopes) o pad out
          else if tag = "partial" then
            let ptext := get_partial_text o.fs key o.partials_dict o.partials_path o.partials_ext
            let left := afterLastNl out
            let ppad := if pyIsSpace left then pad ++ left else pad
            match renderCore n cache (.text ptext) scopes o ppad "" with
            | .error e => .error e
            | .ok (pout, cache2) =>
              let pout2 := if pyIsSpace left then rstripSpTab pout else pout
              renderCore n cache2 (.toks rest) scopes o pad (out ++ pout2)
          else
            renderCore n cache (.toks rest) scopes o pad out

/-- Embeds the public `render` entry point, including the resolution of the
legacy `warn` argument against `on_missing_key` (raising `ValueError` when
both are supplied, before any tokenization) and the seeding of the scope
stack with `[data]`. -/
def render (fuel : Nat) (cache : Cache) (template : Tmpl) (data : Value)
    (partials_dict : List (String × String)) (partials_path : Option String)
    (partials_ext : String) (padding : String) (def_ldel def_rdel : String)
    (scopes : Option (List Value)) (warn : Option Bool) (keep no_escape : Bool)
    (on_missing_key : Option String) (fs : String → Option String) :
    Except RErr (String × Cache) :=
  match
    (match warn with
     | none => .ok (match on_missing_key with
        | none => "ignore"
        | some s => if s = "" then "ignore" else s)
     | some w =>
       match on_missing_key with
       | some _ => .error (RErr.valueError
           "The `warn` argument cannot be used with `on_missing_key`.")
       | none => .ok (if w then "warn" else "ignore") : Except RErr String) with
  | .error e => .error e
  | .ok omk =>
    renderCore fuel cache template
      (match scopes with | none => [data] | some ss => ss)
      { partials_dict := partials_dict, partials_path := partials_path,
        partials_ext := partials_ext, def_ldel := def_ldel,
        def_rdel := def_rdel, on_missing_key := omk, keep := keep,
        no_escape := no_escape, fs := fs }
      padding ""

/-- Runs `render` at its Python defaults: empty cache, no dict partials, partials
path `"."` over an empty filesystem, default delimiters and policies. -/
def renderDef (fuel : Nat) (template : Tmpl) (data : Value) :
    Except RErr (String × Cache) :=
  render fuel [] template data [] (some ".") "mustache" "" "\x7b\x7b" "\x7d\x7d"
    none none false false none (fun _ => none)

example : renderDef 10 (.text "\x7b\x7bv\x7d\x7d") (.dict [("v", .str "<a&b>")])
    = .ok ("&lt;a&amp;b&gt;", []) := rfl
example : renderDef 10 (.text "\x7b\x7b#key\x7d\x7d\x7b\x7b.\x7d\x7d\x7b\x7b/key\x7d\x7d")
    (.dict [("key", .list [.int 1, .int 2, .int 3])]) = .ok ("123", []) := rfl

/-- Balance bookkeeping for a suppressed section body: scanning with `d`
already-pushed falsy frames, every End pops a frame (never the section's own
value) and all frames are popped by the end of the body. -/
def balTo (d : Nat) : List Token → Bool
  | [] => d == 0
  | (tag, _) :: rest =>
    if tag = "end" then (if d = 0 then false else balTo (d - 1) rest)
    else if tag = "section" || tag = "inverted section" then balTo (d + 1) rest
    else balTo d rest

/-- Opts bundle corresponding to the Python defaults of `render`. -/
def opts0 : Opts :=
  { partials_dict := [], partials_path := some ".", partials_ext := "mustache",
    def_ldel := "\x7b\x7b", def_rdel := "\x7d\x7d", on_missing_key := "ignore",
    keep := false, no_escape := false, fs := fun _ => none }

/-!  ## Helper lemmas -/

/-- A scope whose first dotted segment fails (with a caught exception) is
abandoned and the walk continues with the next outer scope. -/
theorem walk_first_fail {s0 : Value} {segs : List String} {e : PyExc}
    (rest : List Value) (h : resolveSegs s0 segs 0 = .error (0, e))
    (he : e ≠ .typeError) :
    walkScopes (s0 :: rest) segs = walkScopes rest segs := by
  cases e <;> simp_all [walkScopes]

/-- A failure on a later segment stops the walk entirely: the missing-key
outcome is reached without consulting the outer scopes. -/
theorem walk_later_fail {s0 : Value} {segs : List String} {i : Nat} {e : PyExc}
    (rest : List Value) (h : resolveSegs s0 segs 0 = .error (i, e))
    (hi : 0 < i) (he : e ≠ .typeError) :
    walkScopes (s0 :: rest) segs = .ok none := by
  cases e <;> simp_all [walkScopes]

/-- A scope that resolves the full path returns the coerced value at once. -/
theorem getKey_resolved {key : String} {s0 : Value} (rest : List Value)
    {v w : Value} (omk : String) (kp : Bool) (l r : String) (hk : key ≠ ".")
    (hres : resolveSegs s0 (splitChar '.' key) 0 = .ok v)
    (hco : coerceFound v = some w) :
    get_key key (s0 :: rest) omk kp l r = .ok ([], w) := by
  simp only [get_key, if_neg hk, walkScopes, hres, hco]

/-- String values pass the falsy coercion unchanged (an empty string is
collapsed to the empty string, which is the same value). -/
theorem coerceFound_str (s : String) : coerceFound (.str s) = some (.str s) := by
  by_cases h : s = "" <;> simp [coerceFound, getattrV, truthyV, h]

/-- A value whose falsy-marker attribute is truthy is returned as-is. -/
theorem coerceFound_marker (fields : List (String × Value)) (pb : Bool)
    (m : Value) (hlook : fields.lookup falsyMarker = some m)
    (hm : truthyV m = true) :
    coerceFound (.obj fields pb) = some (.obj fields pb) := by
  simp [coerceFound, getattrV, hlook, hm]

/-- Resolution of the key `"v"` against a one-entry dictionary scope. -/
theorem getKey_var_str (s : String) (omk : String) (kp : Bool) (l r : String) :
    get_key "v" [.dict [("v", .str s)]] omk kp l r = .ok ([], .str s) := by
  simp [get_key, walkScopes, resolveSegs, splitChar, splitCharAux, trySegment,
    subscriptV, coerceFound_str]

/-- The element loop of a sequence section is a string concatenation when
every element render succeeds without touching the cache. -/
theorem foldElems_sjoin (rc : RenderFn) (tags : List Token) (scopes : List Value)
    (o : Opts) (pad : String) (f : Value → String) :
    ∀ (xs : List Value) (cache : Cache) (out : String),
    (∀ x ∈ xs, rc cache (.toks tags) (x :: scopes) o pad "" = .ok (f x, cache)) →
    foldElems rc cache tags xs scopes o pad out = .ok (out ++ sjoin (xs.map f), cache)
  | [], cache, out, _ => by simp [foldElems, sjoin]
  | x :: xs, cache, out, h => by
    have hx := h x (by simp)
    simp only [foldElems, hx, List.map_cons, sjoin]
    rw [foldElems_sjoin rc tags scopes o pad f xs cache (out ++ f x)
      (fun y hy => h y (by simp [hy]))]
    simp [String.append_assoc]

/-- Inside an excluded (falsy) branch, a balanced token run produces no
output and no cache traffic: each Section/InvertedSection open pushes a
falsy marker, each End pops one, every other tag is skipped, and the run
ends when the matching End pops the section's own falsy value. -/
theorem renderCore_suppressed (k : String) (o : Opts) (pad : String)
    (rest : List Token) :
    ∀ (inner : List Token) (frames : List Value) (v0 : Value)
      (tail : List Value) (n : Nat) (cache : Cache) (out : String),
    balTo frames.length inner = true →
    (∀ f ∈ frames, truthyV f = false) →
    truthyV v0 = false →
    tail ≠ [] →
    renderCore (n + 1 + inner.length) cache (.toks (inner ++ ("end", k) :: rest))
      (frames ++ v0 :: tail) o pad out
      = renderCore n cache (.toks rest) tail o pad out
  | [], frames, v0, tail, n, cache, out, hb, hf, hv0, ht => by
    have hfr : frames = [] := by
      simpa [balTo, List.length_eq_zero] using hb
    subst hfr
    simp [renderCore, getToks]
  | (tag, kk) :: inner, frames, v0, tail, n, cache, out, hb, hf, hv0, ht => by
    obtain ⟨w, ws, hfr, hw⟩ :
        ∃ w ws, frames ++ v0 :: tail = w :: ws ∧ truthyV w = false := by
      cases frames with
      | nil => exact ⟨v0, tail, rfl, hv0⟩
      | cons f fr => exact ⟨f, fr ++ v0 :: tail, rfl, hf f (by simp)⟩
    have hlen : ((w :: ws).length != 1) = true := by
      rw [← hfr]
      cases tail with
      | nil => exact absurd rfl ht
      | cons t ts => simp [List.length_append]; omega
    show renderCore ((n + 1 + inner.length) + 1) cache
      (.toks (((tag, kk) :: inner) ++ ("end", k) :: rest))
      (frames ++ v0 :: tail) o pad out = _
    rw [List.cons_append, hfr]
    by_cases hend : tag = "end"
    · subst hend
      cases frames with
      | nil => simp [balTo] at hb
      | cons f fr =>
        have hb2 : balTo fr.length inner = true := by simpa [balTo] using hb
        have hfr' : ws = fr ++ v0 :: tail := by
          have := hfr
          simp only [List.cons_append, List.cons.injEq] at this
          exact this.2.symm
        simp only [renderCore, getToks, if_pos rfl]
        rw [hfr']
        exact renderCore_suppressed k o pad rest inner fr v0 tail n cache out hb2
          (fun g hg => hf g (by simp [hg])) hv0 ht
    · by_cases hop : (tag = "section" || tag = "inverted section") = true
      · have hb' : balTo (frames.length + 1) inner = true := by
          simpa [balTo, hend, hop] using hb
        simp only [renderCore, getToks, if_neg hend, hw, Bool.not_false,
          Bool.true_and, hlen, if_pos rfl, hop, if_true]
        rw [← hfr]
        have : Value.bool false :: (frames ++ v0 :: tail)
            = (Value.bool false :: frames) ++ v0 :: tail := rfl
        rw [this]
        exact renderCore_suppressed k o pad rest inner (.bool false :: frames)
          v0 tail n cache out (by simpa using hb')
          (by intro g hg
              rcases List.mem_cons.mp hg with h1 | h2
              · subst h1; rfl
              · exact hf g h2)
          hv0 ht
      · have hb' : balTo frames.length inner = true := by
          simpa [balTo, hend, hop] using hb
        simp only [renderCore, getToks, if_neg hend, hw, Bool.not_false,
          Bool.true_and, hlen, if_pos rfl, hop, if_false]
        rw [← hfr]
        exact renderCore_suppressed k o pad rest inner frames v0 tail n cache out
          hb' hf hv0 ht

/-!  ## Claims -/

/-- C1: key resolution attempts the full dotted path on each scope from
innermost to outermost, trying keyed access, then named-field access, then
integer-indexed access at each segment; a failure on the first segment moves
to the next outer scope, a failure on a later segment stops the search
entirely (the outer scopes are not consulted, even when they could resolve
the key), and "a.b.c" against a nested dictionary resolves to "x". -/
theorem c1_dotted_key_resolution :
    (∀ (key : String) (s0 : Value) (rest : List Value) (e : PyExc)
       (omk : String) (kp : Bool) (l r : String),
       key ≠ "." →
       resolveSegs s0 (splitChar '.' key) 0 = .error (0, e) →
       e ≠ .typeError →
       get_key key (s0 :: rest) omk kp l r = get_key key rest omk kp l r)
    ∧ (∀ (key : String) (s0 : Value) (rest : List Value) (i : Nat) (e : PyExc)
       (omk : String) (kp : Bool) (l r : String),
       key ≠ "." →
       resolveSegs s0 (splitChar '.' key) 0 = .error (i, e) →
       0 < i → e ≠ .typeError →
       get_key key (s0 :: rest) omk kp l r = get_key key [] omk kp l r)
    ∧ (∀ (es : List (String × Value)) (child : String),
       trySegment (.dict es) child =
         (match es.lookup child with
          | some v => .ok v
          | none => .error (.keyError child)))
    ∧ (∀ (fields : List (String × Value)) (pb : Bool) (child : String) (v : Value),
       fields.lookup child = some v → trySegment (.obj fields pb) child = .ok v)
    ∧ (∀ (x : Value) (xs : List Value), trySegment (.list (x :: xs)) "0" = .ok x)
    ∧ get_key "a.b.c" [.dict [("a", .dict [("b", .dict [("c", .str "x")])])]]
        "ignore" false "\x7b\x7b" "\x7d\x7d" = .ok ([], .str "x")
    ∧ get_key "a.z" [.dict [("a", .dict [("b", .dict [("c", .str "x")])])]]
        "ignore" false "\x7b\x7b" "\x7d\x7d" = .ok ([], .str "")
    ∧ get_key "a.z" [.dict [("a", .dict [("b", .dict [("c", .str "x")])])]]
        "error" false "\x7b\x7b" "\x7d\x7d"
        = .error (.keyError ("Could not find key " ++ squote ++ "a.z" ++ squote))
    ∧ get_key "x" [.dict [], .dict [("x", .str "v")]] "ignore" false "\x7b\x7b" "\x7d\x7d"
        = .ok ([], .str "v") := by
  refine ⟨?_, ?_, ?_, ?_, ?_, rfl, rfl, rfl, rfl⟩
  · intro key s0 rest e omk kp l r hk h he
    simp only [get_key, if_neg hk, walk_first_fail rest h he]
  · intro key s0 rest i e omk kp l r hk h hi he
    simp only [get_key, if_neg hk, walk_later_fail rest h hi he]
    rfl
  · intro es child
    cases h : es.lookup child <;> simp [trySegment, subscriptV, h]
  · intro fields pb child v h
    simp [trySegment, subscriptV, getattrV, h]
  · intro x xs
    simp [trySegment, subscriptV, getattrV, intIndexV, pyInt, pyStrip, pyIndexList]

/-- Witness for C1: a first-segment miss on the inner empty scope falls
through to the outer scope, while a second-segment miss on the inner scope
abandons the search even though the outer scope could resolve the path. -/
theorem c1_dotted_key_resolution_witness :
    get_key "x" [.dict [], .dict [("x", .str "v")]] "ignore" false "\x7b\x7b" "\x7d\x7d"
      = get_key "x" [.dict [("x", .str "v")]] "ignore" false "\x7b\x7b" "\x7d\x7d"
    ∧ get_key "a.z"
        [.dict [("a", .dict [("b", .str "x")])],
         .dict [("a", .dict [("z", .str "outer")])]] "ignore" false "\x7b\x7b" "\x7d\x7d"
      = get_key "a.z" ([] : List Value) "ignore" false "\x7b\x7b" "\x7d\x7d" :=
  ⟨c1_dotted_key_resolution.1 "x" (.dict []) [.dict [("x", .str "v")]]
      (.keyError "x") "ignore" false "\x7b\x7b" "\x7d\x7d" (by decide) rfl (by decide),
   c1_dotted_key_resolution.2.1 "a.z" (.dict [("a", .dict [("b", .str "x")])])
      [.dict [("a", .dict [("z", .str "outer")])]] 1 (.keyError "z")
      "ignore" false "\x7b\x7b" "\x7d\x7d" (by decide) rfl (by decide) (by decide)⟩

/-- C2: a section bound to a (non-string) sequence collects its tag
subsequence up to the matching End with a same-key open/close counter, then
renders the subsequence once per element with the element pushed as the new
innermost scope, concatenating the results in iteration order; the template
"{{#key}}{{.}}{{/key}}" over [1,2,3] renders "123", a zero-element sequence
contributes empty output, and an inner section with the identical key does
not terminate the outer one. -/
theorem c2_section_sequence_iteration :
    (∀ (key : String) (rest : List Token) (xs : List Value) (s0 : Value)
       (srest : List Value) (o : Opts) (pad out : String) (n : Nat)
       (cache : Cache) (f : Value → String) (tags rest2 : List Token),
       get_key key (s0 :: srest) o.on_missing_key o.keep o.def_ldel o.def_rdel
         = .ok ([], .list xs) →
       truthyV s0 = true →
       collectSection key 0 rest = (tags, rest2) →
       (∀ x ∈ xs, renderCore n cache (.toks tags) (x :: s0 :: srest) o pad ""
         = .ok (f x, cache)) →
       renderCore (n + 1) cache (.toks (("section", key) :: rest))
         (s0 :: srest) o pad out
         = renderCore n cache (.toks rest2) (s0 :: srest) o pad
             (out ++ sjoin (xs.map f)))
    ∧ renderDef 10 (.text "\x7b\x7b#key\x7d\x7d\x7b\x7b.\x7d\x7d\x7b\x7b/key\x7d\x7d")
        (.dict [("key", .list [.int 1, .int 2, .int 3])]) = .ok ("123", [])
    ∧ renderDef 10 (.text "\x7b\x7b#key\x7d\x7d\x7b\x7b.\x7d\x7d\x7b\x7b/key\x7d\x7d")
        (.dict [("key", .list [])]) = .ok ("", [])
    ∧ renderDef 20 (.text "\x7b\x7b#k\x7d\x7dA\x7b\x7b#k\x7d\x7dB\x7b\x7b/k\x7d\x7d\x7b\x7b/k\x7d\x7d")
        (.dict [("k", .list [.dict [("k", .list [.int 1])]])]) = .ok ("AB", []) := by
  refine ⟨?_, rfl, rfl, rfl⟩
  intro key rest xs s0 srest o pad out n cache f tags rest2 hkey hs0 hcol helem
  simp only [renderCore, getToks, hkey, hs0, hcol, isCallable, isSeqNonStr, seqElems,
    foldElems_sjoin (renderCore n) tags (s0 :: srest) o pad f xs cache out helem]
  simp

/-- Witness for C2: the general iteration statement at the concrete template
tokens of "{{#key}}{{.}}{{/key}}" with the two-element sequence [1, 2]. -/
theorem c2_section_sequence_iteration_witness :
    renderCore 6 [] (.toks [("section", "key"), ("variable", "."), ("end", "key")])
      [.dict [("key", .list [.int 1, .int 2])]] opts0 "" ""
      = renderCore 5 [] (.toks [])
          [.dict [("key", .list [.int 1, .int 2])]] opts0 ""
          ("" ++ sjoin ([Value.int 1, Value.int 2].map
            (fun v => html_escape (pyStr v)))) :=
  c2_section_sequence_iteration.1 "key" [("variable", "."), ("end", "key")]
    [.int 1, .int 2] (.dict [("key", .list [.int 1, .int 2])]) [] opts0 "" "" 5 []
    (fun v => html_escape (pyStr v)) [("variable", ".")] [] rfl rfl rfl
    (by intro x hx
        rcases List.mem_cons.mp hx with h | h
        · subst h; rfl
        · rcases List.mem_cons.mp h with h2 | h2
          · subst h2; rfl
          · simp at h2)

/-- C3: a Variable tag appends the resolved value's string form HTML-escaped
(ampersand first, then quote, less-than, greater-than), while an Unescaped
tag ("{{{v}}}" or "{{&v}}") appends the string form with no escaping
regardless of the global escape mode. -/
theorem c3_variable_escaping :
    (∀ s : String, renderDef 3 (.toks [("variable", "v")]) (.dict [("v", .str s)])
       = .ok (html_escape s, []))
    ∧ (∀ (s : String) (b : Bool),
       render 3 [] (.toks [("no escape", "v")]) (.dict [("v", .str s)]) []
         (some ".") "mustache" "" "\x7b\x7b" "\x7d\x7d" none none false b none (fun _ => none)
         = .ok (s, []))
    ∧ html_escape "<a&b>" = "&lt;a&amp;b&gt;"
    ∧ renderDef 10 (.text "\x7b\x7bv\x7d\x7d") (.dict [("v", .str "<a&b>")])
        = .ok ("&lt;a&amp;b&gt;", [])
    ∧ renderDef 10 (.text "\x7b\x7b\x7bv\x7d\x7d\x7d") (.dict [("v", .str "<a&b>")])
        = .ok ("<a&b>", []) := by
  refine ⟨?_, ?_, rfl, rfl, rfl⟩
  · intro s
    simp [renderDef, render, renderCore, getToks, getKey_var_str, pyStr]
  · intro s b
    simp [render, renderCore, getToks, getKey_var_str, pyStr]

/-- C4 (code defect): the lambda re-serializer renders literals verbatim,
Unescaped tags in the "&" sigil form and other tags with their sigil between
the active delimiters, hands the result to the callable as its first argument
together with a render callback that pushes supplied truthy extra data as a
new top scope frame, and appends the returned string unescaped — but the
sigil dictionary misspells the comment key as "commment", so serializing a
comment tag inside a lambda section raises a KeyError instead of emitting the
"!" sigil form. -/
theorem c4_lambda_serialization :
    renderDef 20 (.text "\x7b\x7b#f\x7d\x7d\x7b\x7b! hi\x7d\x7d\x7b\x7b/f\x7d\x7d") (.dict [("f", .lamEcho)])
      = .error (.py (.keyError "comment"))
    ∧ renderDef 20 (.text "\x7b\x7b#f\x7d\x7da\x7b\x7bv\x7d\x7d\x7b\x7b&u\x7d\x7d\x7b\x7b#s\x7d\x7dx\x7b\x7b/s\x7d\x7d\x7b\x7b/f\x7d\x7d")
        (.dict [("f", .lamEcho)])
        = .ok ("a\x7b\x7b v\x7d\x7d\x7b\x7b& u \x7d\x7d\x7b\x7b# s\x7d\x7dx\x7b\x7b/ s\x7d\x7d",
            [("a\x7b\x7b v\x7d\x7d\x7b\x7b& u \x7d\x7d\x7b\x7b# s\x7d\x7dx\x7b\x7b/ s\x7d\x7d",
              [("literal", "a"), ("variable", "v"), ("no escape", "u"),
               ("section", "s"), ("literal", "x"), ("end", "s")])])
    ∧ renderDef 20 (.text "\x7b\x7b#f\x7d\x7dignored\x7b\x7b/f\x7d\x7d")
        (.dict [("f", .lamRender "\x7b\x7bz\x7d\x7d" (some (.dict [("z", .str "Z")])))])
        = .ok ("Z", [("ignored", [("literal", "ignored")])])
    ∧ renderDef 20 (.text "\x7b\x7b#f\x7d\x7dx\x7b\x7b/f\x7d\x7d") (.dict [("f", .lamConst "<raw>")])
        = .ok ("<raw>", [("x", [("literal", "x")])]) :=
  ⟨rfl, rfl, rfl, rfl⟩

/-- C5: a well-formed section whose key resolves to a falsy, non-callable,
non-sequence value contributes empty output: the falsy value is pushed as
the current scope and, while the front of the stack is falsy and the stack
has more than one entry, no tag produces output and nested
Section/InvertedSection opens push a falsy marker instead of resolving their
key; concretely, "{{#key}}L{{/key}}" renders "" whenever key is bound to an
empty sequence, false, the empty string, or absent under the default
missing-key policy. -/
theorem c5_falsy_section_suppression :
    (∀ (key : String) (inner rest : List Token) (v : Value) (ws : List String)
       (s0 : Value) (srest : List Value) (o : Opts) (pad out : String)
       (n : Nat) (cache : Cache),
       get_key key (s0 :: srest) o.on_missing_key o.keep o.def_ldel o.def_rdel
         = .ok (ws, v) →
       truthyV v = false → isCallable v = false → isSeqNonStr v = false →
       truthyV s0 = true → balTo 0 inner = true →
       renderCore ((n + 1 + inner.length) + 1) cache
         (.toks (("section", key) :: inner ++ ("end", key) :: rest))
         (s0 :: srest) o pad out
         = renderCore n cache (.toks rest) (s0 :: srest) o pad out)
    ∧ renderDef 10 (.text "\x7b\x7b#key\x7d\x7dL\x7b\x7b/key\x7d\x7d") (.dict [("key", .list [])])
        = .ok ("", [])
    ∧ renderDef 10 (.text "\x7b\x7b#key\x7d\x7dL\x7b\x7b/key\x7d\x7d") (.dict [("key", .bool false)])
        = .ok ("", [])
    ∧ renderDef 10 (.text "\x7b\x7b#key\x7d\x7dL\x7b\x7b/key\x7d\x7d") (.dict [("key", .str "")])
        = .ok ("", [])
    ∧ renderDef 10 (.text "\x7b\x7b#key\x7d\x7dL\x7b\x7b/key\x7d\x7d") (.dict []) = .ok ("", []) := by
  refine ⟨?_, rfl, rfl, rfl, rfl⟩
  intro key inner rest v ws s0 srest o pad out n cache hkey hv hc hs hs0 hbal
  have step : ∀ tl : List Token,
      renderCore ((n + 1 + inner.length) + 1) cache (.toks (("section", key) :: tl))
        (s0 :: srest) o pad out
      = renderCore (n + 1 + inner.length) cache (.toks tl)
          (v :: s0 :: srest) o pad out := by
    intro tl
    simp only [renderCore, getToks, hkey, hs0, hc, hs]
    simp
  exact (step (inner ++ ("end", key) :: rest)).trans
    (renderCore_suppressed key o pad rest inner [] v (s0 :: srest) n cache out
      (by simpa using hbal) (by simp) hv (by simp))

/-- Witness for C5: the general suppression statement at the concrete tokens
of "{{#key}}L{{/key}}" with the key bound to the empty string. -/
theorem c5_falsy_section_suppression_witness :
    renderCore 4 [] (.toks [("section", "key"), ("literal", "L"), ("end", "key")])
      [.dict [("key", .str "")]] opts0 "" ""
      = renderCore 1 [] (.toks []) [.dict [("key", .str "")]] opts0 "" "" :=
  c5_falsy_section_suppression.1 "key" [("literal", "L")] [] (.str "") []
    (.dict [("key", .str "")]) [] opts0 "" "" 1 [] rfl rfl rfl rfl rfl rfl

/-- C6: when no scope yields a key, the missing-key policy applies — ignore
returns the empty string, warn emits a diagnostic and returns the empty
string, error fails with a key-lookup error — and with keep-unmatched-tags
set (and a non-erroring policy) the tag text is reconstructed from the
active delimiters with exactly one space on each side of the key, so
rendering "{{ x }} {{ y }}" with y absent and keep set yields "1 {{ y }}". -/
theorem c6_missing_key_policy :
    (∀ (key : String) (scopes : List Value) (l r : String),
       key ≠ "." →
       walkScopes scopes (splitChar '.' key) = .ok none →
       get_key key scopes "ignore" false l r = .ok ([], .str "")
       ∧ get_key key scopes "warn" false l r
         = .ok (["Could not find key " ++ squote ++ key ++ squote ++ " in data"],
             .str "")
       ∧ (∀ kp : Bool, get_key key scopes "error" kp l r
         = .error (.keyError ("Could not find key " ++ squote ++ key ++ squote)))
       ∧ get_key key scopes "ignore" true l r
         = .ok ([], .str (l ++ " " ++ key ++ " " ++ r))
       ∧ get_key key scopes "warn" true l r
         = .ok (["Could not find key " ++ squote ++ key ++ squote ++ " in data"],
             .str (l ++ " " ++ key ++ " " ++ r)))
    ∧ render 20 [] (.text "\x7b\x7b x \x7d\x7d \x7b\x7b y \x7d\x7d") (.dict [("x", .str "1")])
        [] (some ".") "mustache" "" "\x7b\x7b" "\x7d\x7d" none none true false none
        (fun _ => none)
      = .ok ("1 \x7b\x7b y \x7d\x7d", []) := by
  refine ⟨?_, rfl⟩
  intro key scopes l r hk hmiss
  refine ⟨?_, ?_, fun kp => ?_, ?_, ?_⟩ <;>
    simp only [get_key, if_neg hk, hmiss] <;> rfl

/-- Witness for C6: the policy outcomes for the key "y" missing from a
one-entry scope. -/
theorem c6_missing_key_policy_witness :
    get_key "y" [.dict [("x", .str "1")]] "ignore" false "\x7b\x7b" "\x7d\x7d"
      = .ok ([], .str "")
    ∧ get_key "y" [.dict [("x", .str "1")]] "error" false "\x7b\x7b" "\x7d\x7d"
      = .error (.keyError ("Could not find key " ++ squote ++ "y" ++ squote))
    ∧ get_key "y" [.dict [("x", .str "1")]] "ignore" true "\x7b\x7b" "\x7d\x7d"
      = .ok ([], .str ("\x7b\x7b" ++ " " ++ "y" ++ " " ++ "\x7d\x7d")) :=
  ⟨(c6_missing_key_policy.1 "y" [.dict [("x", .str "1")]] "\x7b\x7b" "\x7d\x7d"
      (by decide) rfl).1,
   (c6_missing_key_policy.1 "y" [.dict [("x", .str "1")]] "\x7b\x7b" "\x7d\x7d"
      (by decide) rfl).2.2.1 false,
   (c6_missing_key_policy.1 "y" [.dict [("x", .str "1")]] "\x7b\x7b" "\x7d\x7d"
      (by decide) rfl).2.2.2.1⟩

/-- Counterexample to C7: rendering "{{#f}}{{v}}{{/f}}" under the default
delimiters caches the lambda text "{{ v}}" with its tokens; a later render of
the template text "{{ v}}" with delimiters "<<" / ">>" reuses that entry and
substitutes v, whereas against an empty cache the same render treats the
whole text as a literal — the two results differ. -/
theorem c7_counterexample :
    render 20 [] (.text "\x7b\x7b#f\x7d\x7d\x7b\x7bv\x7d\x7d\x7b\x7b/f\x7d\x7d") (.dict [("f", .lamConst "")])
      [] (some ".") "mustache" "" "\x7b\x7b" "\x7d\x7d" none none false false none
      (fun _ => none)
      = .ok ("", [("\x7b\x7b v\x7d\x7d", [("variable", "v")])])
    ∧ render 20 [("\x7b\x7b v\x7d\x7d", [("variable", "v")])] (.text "\x7b\x7b v\x7d\x7d")
        (.dict [("v", .str "X")]) [] (some ".") "mustache" "" "<<" ">>"
        none none false false none (fun _ => none)
      = .ok ("X", [("\x7b\x7b v\x7d\x7d", [("variable", "v")])])
    ∧ render 20 [] (.text "\x7b\x7b v\x7d\x7d") (.dict [("v", .str "X")]) []
        (some ".") "mustache" "" "<<" ">>" none none false false none
        (fun _ => none)
      = .ok ("\x7b\x7b v\x7d\x7d", [])
    ∧ ("X" : String) ≠ "\x7b\x7b v\x7d\x7d" :=
  ⟨rfl, rfl, rfl, by decide⟩

/-- C7 (amended): token-cache entries are keyed by template text alone — a
render whose template text has a cache entry reuses that token sequence
regardless of the render's initial-delimiter pair (so the result can differ
from an empty-cache render); only when the text is absent from the cache are
the tokens those of an empty-cache render, obtained by tokenizing with the
render's own delimiters. -/
theorem c7_cache_keyed_by_text_alone :
    (∀ (cache : Cache) (t : String) (ts : List Token) (l r : String),
       cache.lookup t = some ts → getToks cache (.text t) l r = .ok ts)
    ∧ (∀ (cache : Cache) (t : String) (l r : String),
       cache.lookup t = none →
       getToks cache (.text t) l r = getToks [] (.text t) l r) := by
  constructor
  · intro cache t ts l r h
    simp [getToks, h]
  · intro cache t l r h
    simp [getToks, h]

/-- Witness for the amended C7: a cache entry for "t" is reused under foreign
delimiters, and a miss falls back to the empty-cache tokenization. -/
theorem c7_cache_keyed_by_text_alone_witness :
    getToks [("t", [("literal", "x")])] (.text "t") "<<" ">>"
      = .ok [("literal", "x")]
    ∧ getToks [("s", [])] (.text "t") "<<" ">>" = getToks [] (.text "t") "<<" ">>" :=
  ⟨c7_cache_keyed_by_text_alone.1 [("t", [("literal", "x")])] "t"
      [("literal", "x")] "<<" ">>" rfl,
   c7_cache_keyed_by_text_alone.2 [("s", [])] "t" "<<" ">>" rfl⟩

/-- C8: partial resolution consults the caller-supplied dictionary first; on
a miss, a `None` or empty partials path skips the filesystem entirely and
yields empty text; otherwise `<path>/<name>.<ext>` is read, and every read
failure degrades to empty text — the total result type shows resolution
never raises. -/
theorem c8_partial_resolution :
    (∀ (fs : String → Option String) (name : String)
       (pd : List (String × String)) (pp : Option String) (pe text : String),
       pd.lookup name = some text → get_partial_text fs name pd pp pe = text)
    ∧ (∀ (fs : String → Option String) (name : String)
       (pd : List (String × String)) (pp : Option String) (pe : String),
       pd.lookup name = none → (pp = none ∨ pp = some "") →
       get_partial_text fs name pd pp pe = "")
    ∧ (∀ (fs : String → Option String) (name : String)
       (pd : List (String × String)) (p pe : String),
       pd.lookup name = none → p ≠ "" →
       get_partial_text fs name pd (some p) pe
         = (match fs (pathJoin p (name ++ (if pe = "" then "" else "." ++ pe))) with
            | some content => content
            | none => "")) := by
  refine ⟨fun fs name pd pp pe text h => ?_, fun fs name pd pp pe h hp => ?_,
    fun fs name pd p pe h hne => ?_⟩
  · simp [get_partial_text, h]
  · rcases hp with hp | hp <;> simp [get_partial_text, h, hp]
  · cases hfs : fs (pathJoin p (name ++ (if pe = "" then "" else "." ++ pe))) <;>
      simp [get_partial_text, h, hne, hfs]

/-- Witness for C8: a dictionary hit, a skipped filesystem lookup, and a
filesystem read that supplies the content. -/
theorem c8_partial_resolution_witness :
    get_partial_text (fun _ => none) "p" [("p", "T")] (some ".") "mustache" = "T"
    ∧ get_partial_text (fun _ => none) "q" [] none "mustache" = ""
    ∧ get_partial_text (fun _ => some "F") "q" [] (some "dir") "mustache" = "F" :=
  ⟨c8_partial_resolution.1 (fun _ => none) "p" [("p", "T")] (some ".")
      "mustache" "T" rfl,
   c8_partial_resolution.2.1 (fun _ => none) "q" [] none "mustache" rfl
      (Or.inl rfl),
   c8_partial_resolution.2.2 (fun _ => some "F") "q" [] "dir" "mustache" rfl
      (by decide)⟩

/-- Counterexample to C9: a key bound to the empty list (a falsy sequence)
resolves to the empty string — not to its real falsy value — so the value
handed to Section/InvertedSection truthiness tests is the coerced empty
string rather than the original empty list. -/
theorem c9_counterexample :
    get_key "k" [.dict [("k", .list [])]] "ignore" false "\x7b\x7b" "\x7d\x7d"
      = .ok ([], .str "")
    ∧ Value.str "" ≠ Value.list [] :=
  ⟨rfl, fun h => Value.noConfusion h⟩

/-- C9 (amended): a successfully resolved `0` or `false` is returned as-is;
a resolved value whose falsy-marker attribute is truthy is returned as-is;
any other falsy resolved value (empty string, empty sequence, empty mapping,
None) resolves to the empty string uniformly — for Variable/Unescaped
display and for Section/InvertedSection tests alike — and since the empty
string is itself falsy, the truthiness outcome of those tests matches the
original value's. -/
theorem c9_falsy_value_coercion :
    (∀ (key : String) (s0 : Value) (rest : List Value) (omk : String)
       (kp : Bool) (l r : String),
       key ≠ "." →
       resolveSegs s0 (splitChar '.' key) 0 = .ok (.int 0) →
       get_key key (s0 :: rest) omk kp l r = .ok ([], .int 0))
    ∧ (∀ (key : String) (s0 : Value) (rest : List Value) (omk : String)
       (kp : Bool) (l r : String),
       key ≠ "." →
       resolveSegs s0 (splitChar '.' key) 0 = .ok (.bool false) →
       get_key key (s0 :: rest) omk kp l r = .ok ([], .bool false))
    ∧ (∀ (key : String) (s0 : Value) (rest : List Value) (omk : String)
       (kp : Bool) (l r : String) (fields : List (String × Value)) (pb : Bool)
       (m : Value),
       key ≠ "." →
       resolveSegs s0 (splitChar '.' key) 0 = .ok (.obj fields pb) →
       fields.lookup falsyMarker = some m → truthyV m = true →
       get_key key (s0 :: rest) omk kp l r = .ok ([], .obj fields pb))
    ∧ (∀ (key : String) (s0 : Value) (rest : List Value) (omk : String)
       (kp : Bool) (l r : String) (v : Value),
       key ≠ "." →
       (v = .str "" ∨ v = .list [] ∨ v = .dict [] ∨ v = .null) →
       resolveSegs s0 (splitChar '.' key) 0 = .ok v →
       get_key key (s0 :: rest) omk kp l r = .ok ([], .str ""))
    ∧ truthyV (.str "") = false := by
  refine ⟨?_, ?_, ?_, ?_, rfl⟩
  · intro key s0 rest omk kp l r hk hres
    exact getKey_resolved rest omk kp l r hk hres rfl
  · intro key s0 rest omk kp l r hk hres
    exact getKey_resolved rest omk kp l r hk hres rfl
  · intro key s0 rest omk kp l r fields pb m hk hres hlook hm
    exact getKey_resolved rest omk kp l r hk hres
      (coerceFound_marker fields pb m hlook hm)
  · intro key s0 rest omk kp l r v hk hv hres
    rcases hv with h | h | h | h <;> subst h <;>
      exact getKey_resolved rest omk kp l r hk hres rfl

/-- Witness for the amended C9: the coercion outcomes for concrete one-entry
dictionary scopes. -/
theorem c9_falsy_value_coercion_witness :
    get_key "k" [.dict [("k", .int 0)]] "ignore" false "\x7b\x7b" "\x7d\x7d"
      = .ok ([], .int 0)
    ∧ get_key "k" [.dict [("k", .obj [(falsyMarker, .bool true)] false)]]
        "ignore" false "\x7b\x7b" "\x7d\x7d"
      = .ok ([], .obj [(falsyMarker, .bool true)] false)
    ∧ get_key "k" [.dict [("k", .null)]] "ignore" false "\x7b\x7b" "\x7d\x7d"
      = .ok ([], .str "") :=
  ⟨c9_falsy_value_coercion.1 "k" (.dict [("k", .int 0)]) [] "ignore" false
      "\x7b\x7b" "\x7d\x7d" (by decide) rfl,
   c9_falsy_value_coercion.2.2.1 "k"
      (.dict [("k", .obj [(falsyMarker, .bool true)] false)]) [] "ignore" false
      "\x7b\x7b" "\x7d\x7d" [(falsyMarker, .bool true)] false (.bool true) (by decide) rfl
      rfl rfl,
   c9_falsy_value_coercion.2.2.2.1 "k" (.dict [("k", .null)]) [] "ignore" false
      "\x7b\x7b" "\x7d\x7d" .null (by decide) (Or.inr (Or.inr (Or.inr rfl))) rfl⟩

/-- C10: supplying both the legacy `warn` argument and `on_missing_key`
raises a ValueError before any tokenization or output; `warn=True` alone
behaves exactly as `on_missing_key="warn"` and `warn=False` alone as
`on_missing_key="ignore"`. -/
theorem c10_warn_argument_compatibility :
    (∀ (fuel : Nat) (cache : Cache) (template : Tmpl) (data : Value)
       (pd : List (String × String)) (pp : Option String) (pe pad l r : String)
       (scopes : Option (List Value)) (b : Bool) (m : String) (kp ne : Bool)
       (fs : String → Option String),
       render fuel cache template data pd pp pe pad l r scopes (some b) kp ne
         (some m) fs
         = .error (.valueError
             "The `warn` argument cannot be used with `on_missing_key`."))
    ∧ (∀ (fuel : Nat) (cache : Cache) (template : Tmpl) (data : Value)
       (pd : List (String × String)) (pp : Option String) (pe pad l r : String)
       (scopes : Option (List Value)) (kp ne : Bool)
       (fs : String → Option String),
       render fuel cache template data pd pp pe pad l r scopes (some true) kp ne
         none fs
         = render fuel cache template data pd pp pe pad l r scopes none kp ne
             (some "warn") fs)
    ∧ (∀ (fuel : Nat) (cache : Cache) (template : Tmpl) (data : Value)
       (pd : List (String × String)) (pp : Option String) (pe pad l r : String)
       (scopes : Option (List Value)) (kp ne : Bool)
       (fs : String → Option String),
       render fuel cache template data pd pp pe pad l r scopes (some false) kp ne
         none fs
         = render fuel cache template data pd pp pe pad l r scopes none kp ne
             (some "ignore") fs) :=
  ⟨fun _ _ _ _ _ _ _ _ _ _ _ _ _ _ _ _ => rfl,
   fun _ _ _ _ _ _ _ _ _ _ _ _ _ _ => rfl,
   fun _ _ _ _ _ _ _ _ _ _ _ _ _ _ => rfl⟩
